import Mathlib

/-!
Verification of the batch comment-classification pipeline
(src/classifyComments/classifyComments_upgrade.py and the legacy
src/classifyComments/classifyComments.py).

The Python code is shallowly embedded: comment records (CSV rows enriched in
place) become a structure, the OpenAI service and the S3 sink become explicit
functional parameters (per-batch outcomes), Python's `range`/slice loop and the
tenacity retry decorator become executable Lean functions. Machine behaviour
that the claims depend on (floor division by zero raising ZeroDivisionError,
range step 0 raising ValueError, dict.get defaults, truthiness of the empty
string) is modelled explicitly.
-/

/-- One comment record flowing through the pipeline: a CSV row (dict) with the
join key `comment_id` and `text_display` used by the prompt builder; all other
CSV columns are kept abstractly as a key-value list. The four classification
fields are the keys the pipeline assigns in place. -/
structure Comment where
  comment_id : String
  text_display : String
  other : List (String × String) := []
  sentiment : String := ""
  positive_status : String := ""
  comment_category : String := ""
  keywords : List String := []
deriving Repr, DecidableEq

/-- One per-comment object of the parsed service response
(`classified["comments"]` element). Fields are optional because the reconciler
accesses them with `dict.get`. -/
structure ClassEntry where
  comment_id : String
  comment : String := ""
  sentiment : Option String := none
  positive_status : Option String := none
  comment_category : Option String := none
  keywords : Option (List String) := none
deriving Repr, DecidableEq

/-- classifyComments_upgrade.py line 152. -/
def SENTIMENT_ENUM : List String :=
  ["JOY", "ANGER", "SADNESS", "SURPRISE", "FEAR", "DISGUST"]

/-- classifyComments_upgrade.py line 153. -/
def POSITIVE_STATUS_ENUM : List String :=
  ["POSITIVE", "NEGATIVE", "NEUTRAL"]

/-- classifyComments_upgrade.py line 154. -/
def COMMENT_CATEGORY_ENUM : List String :=
  ["REACTION", "FEEDBACK", "QUESTION", "SPAM", "INSULT"]

/-- Python dict comprehension `{c["comment_id"]: c for c in ...}` followed by
`.get(key)`: the entry stored last for a key wins. -/
def classification_dict_get (entries : List ClassEntry) (id : String) :
    Option ClassEntry :=
  entries.reverse.find? (fun e => e.comment_id == id)

/-- The empty dict `{}` used as the `.get(comment_id, {})` default. -/
def emptyClassEntry : ClassEntry :=
  { comment_id := "", comment := "", sentiment := none, positive_status := none,
    comment_category := none, keywords := none }

/-- Python `class_result.get(field) in ENUM` (None is never a member). -/
def optMem (v : Option String) (enumVals : List String) : Bool :=
  match v with
  | some s => enumVals.contains s
  | none => false

/-- Upgrade per-field rule (classifyComments_upgrade.py lines 236-250):
`class_result.get(f, "UNKNOWN") if class_result.get(f) in ENUM else "UNKNOWN"`. -/
def classifyField (v : Option String) (enumVals : List String) : String :=
  if optMem v enumVals then v.getD "UNKNOWN" else "UNKNOWN"

/-- Legacy per-field rule (classifyComments.py lines 213-227):
`class_result[f] if class_result.get(f) in ENUM else ""`. -/
def classifyFieldLegacy (v : Option String) (enumVals : List String) : String :=
  if optMem v enumVals then v.getD "" else ""

/-- Reconciliation of one comment against the service result, upgrade version
(classifyComments_upgrade.py lines 234-251). -/
def reconcileComment (entries : List ClassEntry) (c : Comment) : Comment :=
  let class_result := (classification_dict_get entries c.comment_id).getD emptyClassEntry
  { c with
    sentiment := classifyField class_result.sentiment SENTIMENT_ENUM
    positive_status := classifyField class_result.positive_status POSITIVE_STATUS_ENUM
    comment_category := classifyField class_result.comment_category COMMENT_CATEGORY_ENUM
    keywords := class_result.keywords.getD [] }

/-- Reconciliation of one comment, legacy version
(classifyComments.py lines 211-228). -/
def reconcileCommentLegacy (entries : List ClassEntry) (c : Comment) : Comment :=
  let class_result := (classification_dict_get entries c.comment_id).getD emptyClassEntry
  { c with
    sentiment := classifyFieldLegacy class_result.sentiment SENTIMENT_ENUM
    positive_status := classifyFieldLegacy class_result.positive_status POSITIVE_STATUS_ENUM
    comment_category := classifyFieldLegacy class_result.comment_category COMMENT_CATEGORY_ENUM
    keywords := class_result.keywords.getD [] }

/-- Defaults applied to a whole batch when the service call raised
(both files: `comment[f] = "UNKNOWN"` for the three enums, `keywords = []`). -/
def defaultComment (c : Comment) : Comment :=
  { c with
    sentiment := "UNKNOWN"
    positive_status := "UNKNOWN"
    comment_category := "UNKNOWN"
    keywords := [] }

/-- Number of elements of Python `range(start, stop, step)` for `step ≠ 0`. -/
def pythonRangeSize (start stop step : Int) : Nat :=
  if 0 < step then (stop - start + step - 1).toNat / step.toNat
  else (start - stop - step - 1).toNat / (-step).toNat

/-- Python `range(start, stop, step)`: raises ValueError when `step = 0`. -/
def pythonRange (start stop step : Int) : Except String (List Int) :=
  if step = 0 then .error "range() arg 3 must not be zero"
  else .ok ((List.range (pythonRangeSize start stop step)).map (fun k : Nat => start + (k : Int) * step))

/-- Python slice `l[start:stop]` for non-negative bounds. -/
def pySlice {α : Type} (l : List α) (start stop : Int) : List α :=
  (l.take stop.toNat).drop start.toNat

/-- The batch sequence of the classification loop: `comments[i : i + batch_size]`
for `i in range(0, len(comments), batch_size)` (classifyComments_upgrade.py
lines 214-215, classifyComments.py lines 179-180). -/
def makeBatches (comments : List Comment) (batch_size : Int) :
    Except String (List (List Comment)) :=
  (pythonRange 0 comments.length batch_size).map
    (fun idxs => idxs.map (fun i => pySlice comments i (i + batch_size)))

/-- Python floor division `a // b`: rounds toward negative infinity and raises
ZeroDivisionError on a zero divisor. -/
def pyFloorDiv (a b : Int) : Except String Int :=
  if b = 0 then .error "integer division or modulo by zero"
  else .ok (Int.fdiv a b)

/-- The fixed instruction text of the upgrade pipeline
(classifyComments_upgrade.py lines 137-149, `classification_prompt_template`);
apostrophes are written as \x27 escapes. -/
def classification_prompt_template : String :=
  "\nClassify the following YouTube comments (given in the format `comment_id:comment`) into the specified categories with detailed output for each dimension:\n" ++
  "1. **Sentiment**: Assign one of the following emotions: JOY, ANGER, SADNESS, SURPRISE, FEAR, DISGUST.\n" ++
  "2. **PositiveStatus**: Determine the overall sentiment as POSITIVE, NEGATIVE, or NEUTRAL.\n" ++
  "3. **CommentCategory**: Classify the comment into one of these categories: REACTION, FEEDBACK, QUESTION, SPAM, INSULT.\n" ++
  "\nAdditionally:\n" ++
  "- Focus on retaining the exact characters in `comment_id` without any changes or omissions.\n" ++
  "- Ensure differentiation between IDs with similar but distinct strings, as shown in the input example above.\n" ++
  "- Extract exactly 3 keywords that best represent the comment\x27s content, excluding meaningless symbols, common stopwords, and adjectives. Keywords should be nouns or verbs.\n" ++
  "\n**Comments:**\n"

/-- The fixed instruction text of the legacy pipeline
(classifyComments.py lines 106-118, `classification_prompt`); it differs from
the upgrade template only in trailing punctuation/whitespace. -/
def classification_prompt : String :=
  "\nClassify the following YouTube comments (given in the format `comment_id:comment`) into the specified categories with detailed output for each dimension:\n" ++
  "1. **Sentiment**: Assign one of the following emotions: JOY, ANGER, SADNESS, SURPRISE, FEAR, DISGUST.\n" ++
  "2. **PositiveStatus**: Determine the overall sentiment as POSITIVE, NEGATIVE, or NEUTRAL.\n" ++
  "3. **CommentCategory**: Classify the comment into one of these categories: REACTION, FEEDBACK, QUESTION, SPAM, INSULT.\n" ++
  "\nAdditionally:\n" ++
  "- Focus on retaining the exact characters in `comment_id` without any changes or omissions.\n" ++
  "- Ensure differentiation between IDs with similar but distinct strings, as shown in the input example above.\n" ++
  "- Extract exactly 3 keywords that best represent the comment\x27s content, excluding meaningless symbols, common stopwords, and adjectives. Keywords should be nouns or verbs.\n" ++
  "\n**Comments: **\n"

/-- The `"<comment_id> : <comment_text>,\n"` pair appended per comment in the
upgrade loop (classifyComments_upgrade.py line 223). -/
def commentPair (c : Comment) : String :=
  c.comment_id ++ " : " ++ c.text_display ++ ",\n"

/-- The `"<comment_id> : <comment_text>,"` pair appended per comment in the
legacy loop (classifyComments.py lines 182-184, no newline). -/
def commentPairLegacy (c : Comment) : String :=
  c.comment_id ++ " : " ++ c.text_display ++ ","

/-- Concatenation of a batch into upgrade-style pairs, in batch order. -/
def concatPairs : List Comment → String
  | [] => ""
  | c :: cs => commentPair c ++ concatPairs cs

/-- Concatenation of a batch into legacy-style pairs, in batch order. -/
def concatPairsLegacy : List Comment → String
  | [] => ""
  | c :: cs => commentPairLegacy c ++ concatPairsLegacy cs

/-- The prompt built for one batch in the upgrade pipeline: the loop
`prompt = classification_prompt_template; for comment in batch_comments:
prompt += ...` (classifyComments_upgrade.py lines 220-223). -/
def buildPrompt (batch : List Comment) : String :=
  batch.foldl (fun prompt c => prompt ++ commentPair c) classification_prompt_template

/-- `upload_comments_batch_to_s3` (classifyComments_upgrade.py lines 71-91):
the S3 put either succeeds, returning the S3 URI, or raises, in which case the
function catches the error and returns the empty string. -/
def upload_comments_batch_to_s3 (putSucceeds : Bool) (bucket video_id : String)
    (batch_number : Nat) : String :=
  if putSucceeds then
    "s3://" ++ bucket ++ "/classified/" ++ video_id ++ "/classified_comments_" ++
      video_id ++ "_batch_" ++ toString batch_number ++ ".csv"
  else ""

/-- Observable state of one upgrade classification run: the S3 URIs collected,
the prompt passed to the service for each batch, and the comment records after
in-place reconciliation, in input order. -/
structure BatchRunState where
  s3_uris : List String
  prompts : List String
  processed : List Comment
deriving Repr, DecidableEq

/-- The per-batch body of `classify_and_upload_comments`
(classifyComments_upgrade.py lines 214-278), folded over the batch list.
`svc k` is the outcome of the (retried) service call for 0-based batch `k`:
`.ok entries` carries `classified.get("comments", [])` of the parsed response,
`.error` is the exception escaping `call_openai_api`. `uploadOk k` says whether
the S3 put for that batch succeeds. On service failure all four fields are
defaulted and the loop continues; on success the batch is reconciled, written
to CSV (None only for an empty batch, then `continue`), and uploaded, the URI
being collected only when the upload returned a non-empty string. -/
def runBatches (video_id bucket : String) (svc : Nat → Except String (List ClassEntry))
    (uploadOk : Nat → Bool) : Nat → List (List Comment) → BatchRunState
  | _, [] => { s3_uris := [], prompts := [], processed := [] }
  | n, batch :: rest =>
    let prompt := buildPrompt batch
    let st := runBatches video_id bucket svc uploadOk (n + 1) rest
    match svc n with
    | .ok entries =>
      let batch' := batch.map (reconcileComment entries)
      let s3_uri := upload_comments_batch_to_s3 (uploadOk n) bucket video_id (n + 1)
      let uris :=
        if batch'.isEmpty then st.s3_uris
        else if s3_uri.isEmpty then st.s3_uris
        else s3_uri :: st.s3_uris
      { s3_uris := uris, prompts := prompt :: st.prompts, processed := batch' ++ st.processed }
    | .error _ =>
      { s3_uris := st.s3_uris, prompts := prompt :: st.prompts,
        processed := batch.map defaultComment ++ st.processed }

/-- `classify_and_upload_comments` (classifyComments_upgrade.py lines 126-281):
first the line-211 batch count `total_batches = (len(comments) + batch_size - 1)
// batch_size` (whose value only feeds a log message, but whose ZeroDivisionError
on batch_size = 0 escapes before the loop is reached), then the partition with
`range(0, len(comments), batch_size)` and the run over every batch. -/
def classify_and_upload_comments (comments : List Comment) (video_id : String)
    (batch_size : Int) (svc : Nat → Except String (List ClassEntry))
    (uploadOk : Nat → Bool) (bucket : String) : Except String BatchRunState :=
  match pyFloorDiv (comments.length + batch_size - 1) batch_size with
  | .error e => .error e
  | .ok _ =>
    (makeBatches comments batch_size).map (runBatches video_id bucket svc uploadOk 0)

/-- The batch loop of the legacy `classify_comments`
(classifyComments.py lines 179-243). The prompt variable is NOT reset between
iterations: each batch appends its pairs to the accumulated prompt `prompt0`
and the grown prompt is passed on to the next iteration. Returns the prompt
sent to the service for each batch and the comment list after mutation. -/
def classify_comments_loop (svc : Nat → Except String (List ClassEntry)) :
    Nat → String → List (List Comment) → List String × List Comment
  | _, _, [] => ([], [])
  | n, prompt0, batch :: rest =>
    let prompt := batch.foldl (fun p c => p ++ commentPairLegacy c) prompt0
    let batch' :=
      match svc n with
      | .ok entries => batch.map (reconcileCommentLegacy entries)
      | .error _ => batch.map defaultComment
    let tail := classify_comments_loop svc (n + 1) prompt rest
    (prompt :: tail.1, batch' ++ tail.2)

/-- Outcome of the tenacity-wrapped service call: the value or the error of the
last attempt, together with the number of attempts made. -/
inductive RetryOutcome (ε α : Type) where
  | success (attempts : Nat) (value : α)
  | failure (attempts : Nat) (err : ε)
deriving Repr, DecidableEq

/-- Number of attempts the retried call made. -/
def RetryOutcome.attemptsMade {ε α : Type} : RetryOutcome ε α → Nat
  | .success n _ => n
  | .failure n _ => n

/-- The tenacity retry loop with `retry_if_exception_type(Exception)`: attempt
`n`; on success stop, on any error retry while fuel remains, and when the stop
condition is reached propagate the last error. -/
def retryLoop {ε α : Type} (attempt : Nat → Except ε α) : Nat → Nat → RetryOutcome ε α
  | n, 0 =>
    match attempt n with
    | .ok v => .success (n + 1) v
    | .error e => .failure (n + 1) e
  | n, fuel + 1 =>
    match attempt n with
    | .ok v => .success (n + 1) v
    | .error _ => retryLoop attempt (n + 1) fuel

/-- `call_openai_api` under `@retry(stop=stop_after_attempt(3), ...)`
(classifyComments_upgrade.py lines 94-123): at most 3 attempts in total.
`attempt k` is the outcome of the k-th underlying call. -/
def call_openai_api {ε α : Type} (attempt : Nat → Except ε α) : RetryOutcome ε α :=
  retryLoop attempt 0 2

/-- The two kinds of exception that can escape one attempt of
`call_openai_api`: an error raised by `openai_client.chat.completions.create`
(network/service failure), or a `json.loads` error on the response body. They
are distinct Python exception types, modelled as distinct constructors. -/
inductive ApiFailure where
  | serviceError (msg : String)
  | malformedResponse (msg : String)
deriving Repr, DecidableEq

/-- One attempt of `call_openai_api` (classifyComments_upgrade.py lines
106-123): perform the network call, then `json.loads` the returned content;
either stage failing raises its own exception kind. -/
def call_openai_api_attempt (netResult : Except String String)
    (parseContent : String → Except String (List ClassEntry)) :
    Except ApiFailure (List ClassEntry) :=
  match netResult with
  | .error e => .error (.serviceError e)
  | .ok content =>
    match parseContent content with
    | .error e => .error (.malformedResponse e)
    | .ok parsed => .ok parsed

/-- A value extracted from the Lambda event dict: already an int, or a string
fed to Python `int(...)`. -/
inductive EventValue where
  | int (n : Int)
  | str (s : String)
deriving Repr, DecidableEq

/-- Python `int(x)` on an event value: the identity on ints; on strings,
whitespace is stripped and an optional sign plus digits are accepted,
everything else raising ValueError. -/
def pyInt : EventValue → Except String Int
  | .int n => .ok n
  | .str s =>
    match s.trim.toInt? with
    | some n => .ok n
    | none => .error "invalid literal for int() with base 10"

/-- Response of the Lambda handler: HTTP-ish status code, and for 200 the list
of S3 URIs carried in the body. -/
structure LambdaResponse where
  statusCode : Nat
  s3_uris : Option (List String)
deriving Repr, DecidableEq

/-- `lambda_handler` (classifyComments_upgrade.py lines 307-368). A missing
`video_id` (KeyError) or an unparsable `batch_size` (ValueError) return 400;
an empty fetch returns 404; otherwise the classification run is performed and
the handler returns 500 when it produced no URI and 200 with the URIs
otherwise. An exception escaping `classify_and_upload_comments` (such as the
ValueError of `range` on a zero step) is not caught: the handler propagates it
(`.error`) instead of returning a status response. -/
def lambda_handler (event_video_id : Option String) (event_batch_size : Option EventValue)
    (fetched : List Comment) (svc : Nat → Except String (List ClassEntry))
    (uploadOk : Nat → Bool) (bucket : String) : Except String LambdaResponse :=
  match event_video_id with
  | none => .ok { statusCode := 400, s3_uris := none }
  | some video_id =>
    match pyInt (event_batch_size.getD (.int 20)) with
    | .error _ => .ok { statusCode := 400, s3_uris := none }
    | .ok batch_size =>
      if fetched.isEmpty then .ok { statusCode := 404, s3_uris := none }
      else
        match classify_and_upload_comments fetched video_id batch_size svc uploadOk bucket with
        | .error e => .error e
        | .ok st =>
          if st.s3_uris.isEmpty then .ok { statusCode := 500, s3_uris := none }
          else .ok { statusCode := 200, s3_uris := some st.s3_uris }

/-- Projection to the fields reconciliation must not touch: the join key and
every non-classification column. -/
def baseOf (c : Comment) : String × String × List (String × String) :=
  (c.comment_id, c.text_display, c.other)

/-- The legacy `classify_comments` (classifyComments.py lines 97-243):
the same range/slice partition, then the accumulating batch loop starting from
the legacy instruction text. Returns the per-batch prompts and the mutated
comment list. -/
def classify_comments (comments : List Comment) (batch_size : Int)
    (svc : Nat → Except String (List ClassEntry)) :
    Except String (List String × List Comment) :=
  (makeBatches comments batch_size).map
    (classify_comments_loop svc 0 classification_prompt)

/-- The batch list expressed over Nat indices: what the range/slice loop
computes for a positive batch size. -/
def makeBatchesNat (l : List Comment) (b : Nat) : List (List Comment) :=
  (List.range ((l.length + b - 1) / b)).map (fun k => (l.drop (k * b)).take b)

/-- Concrete comment records used to exercise the theorems. -/
def cW1 : Comment := { comment_id := "idA", text_display := "great video" }

/-- Concrete comment record. -/
def cW2 : Comment := { comment_id := "idB", text_display := "why though" }

/-- Concrete comment record. -/
def cW3 : Comment := { comment_id := "idC", text_display := "spam spam" }

/-- A concrete service entry whose sentiment value is outside the closed
enumeration. -/
def eInvalid : ClassEntry := { comment_id := "idA", comment := "great video", sentiment := some "HAPPY" }

/-- A concrete fully valid service entry for `cW1`. -/
def eValid : ClassEntry :=
  { comment_id := "idA", comment := "great video", sentiment := some "JOY",
    positive_status := some "POSITIVE", comment_category := some "REACTION",
    keywords := some ["great", "video"] }

/-! ### Helper lemmas -/

theorem foldl_commentPair (batch : List Comment) :
    ∀ init : String, batch.foldl (fun p c => p ++ commentPair c) init = init ++ concatPairs batch := by
  induction batch with
  | nil => intro init; simp [concatPairs]
  | cons c cs ih =>
    intro init
    simp only [List.foldl_cons, concatPairs, ih, String.append_assoc]

theorem foldl_commentPairLegacy (batch : List Comment) :
    ∀ init : String, batch.foldl (fun p c => p ++ commentPairLegacy c) init = init ++ concatPairsLegacy batch := by
  induction batch with
  | nil => intro init; simp [concatPairsLegacy]
  | cons c cs ih =>
    intro init
    simp only [List.foldl_cons, concatPairsLegacy, ih, String.append_assoc]

theorem concatPairsLegacy_append (a b : List Comment) :
    concatPairsLegacy (a ++ b) = concatPairsLegacy a ++ concatPairsLegacy b := by
  induction a with
  | nil => simp [concatPairsLegacy]
  | cons c cs ih => simp [concatPairsLegacy, ih, String.append_assoc]

theorem buildPrompt_eq (batch : List Comment) :
    buildPrompt batch = classification_prompt_template ++ concatPairs batch :=
  foldl_commentPair batch classification_prompt_template

theorem ceil_div_succ {N b : Nat} (hb : 0 < b) (hN : 0 < N) :
    (N + b - 1) / b = (N - b + b - 1) / b + 1 := by
  rcases le_or_lt b N with h | h
  · have h1 : N + b - 1 = (N - b + b - 1) + b := by omega
    rw [h1, Nat.add_div_right _ hb]
  · have h0 : N - b = 0 := by omega
    rw [h0]
    have h1 : (N + b - 1) / b = 1 := by
      apply Nat.div_eq_of_lt_le
      · omega
      · omega
    have h2 : (0 + b - 1) / b = 0 := Nat.div_eq_of_lt (by omega)
    omega

theorem makeBatchesNat_nil (b : Nat) : makeBatchesNat [] b = [] := by
  have h : (b - 1) / b = 0 := by
    rcases Nat.eq_zero_or_pos b with hb | hb
    · subst hb; simp
    · exact Nat.div_eq_of_lt (by omega)
  simp [makeBatchesNat, h]

theorem makeBatchesNat_cons {l : List Comment} {b : Nat} (hb : 0 < b) (hl : l ≠ []) :
    makeBatchesNat l b = l.take b :: makeBatchesNat (l.drop b) b := by
  have hN : 0 < l.length := List.length_pos.mpr hl
  unfold makeBatchesNat
  rw [List.length_drop, ceil_div_succ hb hN, List.range_succ_eq_map]
  simp only [List.map_cons, List.map_map, Nat.zero_mul, List.drop_zero]
  congr 1
  apply List.map_congr_left
  intro k _
  simp only [Function.comp_apply]
  rw [List.drop_drop]
  have hmul : Nat.succ k * b = b + k * b := by rw [Nat.succ_mul]; omega
  rw [hmul]

theorem makeBatches_pos (l : List Comment) (B : Int) (hB : 0 < B) :
    makeBatches l B = .ok (makeBatchesNat l B.toNat) := by
  obtain ⟨b, rfl⟩ : ∃ b : Nat, B = (b : Int) := ⟨B.toNat, (Int.toNat_of_nonneg hB.le).symm⟩
  have hb : 0 < b := by exact_mod_cast hB
  have hne : (b : Int) ≠ 0 := by exact_mod_cast hb.ne'
  have hsize : pythonRangeSize 0 l.length b = (l.length + b - 1) / b := by
    unfold pythonRangeSize
    rw [if_pos (by exact_mod_cast hb)]
    have h1 : ((l.length : Int) - 0 + b - 1).toNat = l.length + b - 1 := by omega
    have h2 : ((b : Int)).toNat = b := Int.toNat_natCast b
    rw [h1, h2]
  unfold makeBatches pythonRange
  rw [if_neg hne, hsize]
  simp only [Except.map, Int.toNat_natCast]
  congr 1
  unfold makeBatchesNat
  rw [List.map_map]
  apply List.map_congr_left
  intro k _
  simp only [Function.comp_apply]
  unfold pySlice
  have h3 : ((0 : Int) + k * b).toNat = k * b := by
    have h : ((0 : Int) + k * b) = ((k * b : Nat) : Int) := by push_cast; ring
    rw [h, Int.toNat_natCast]
  have h4 : ((0 : Int) + k * b + b).toNat = k * b + b := by
    have h : ((0 : Int) + k * b + b) = ((k * b + b : Nat) : Int) := by push_cast; ring
    rw [h, Int.toNat_natCast]
  rw [h3, h4, List.drop_take]
  congr 1
  omega

theorem pyFloorDiv_ne_zero (a b : Int) (hb : b ≠ 0) :
    pyFloorDiv a b = .ok (Int.fdiv a b) := by
  unfold pyFloorDiv
  rw [if_neg hb]

theorem classify_and_upload_ne_zero (comments : List Comment) (video_id : String)
    (batch_size : Int) (svc : Nat → Except String (List ClassEntry))
    (uploadOk : Nat → Bool) (bucket : String) (hB : batch_size ≠ 0) :
    classify_and_upload_comments comments video_id batch_size svc uploadOk bucket =
      (makeBatches comments batch_size).map (runBatches video_id bucket svc uploadOk 0) := by
  unfold classify_and_upload_comments
  rw [pyFloorDiv_ne_zero _ _ hB]

theorem makeBatchesNat_ne_nil {l : List Comment} {b : Nat} (h : makeBatchesNat l b ≠ []) :
    l ≠ [] := by
  intro hl
  subst hl
  exact h (makeBatchesNat_nil b)

theorem makeBatchesNat_flatten_aux (b : Nat) (hb : 0 < b) :
    ∀ (fuel : Nat) (l : List Comment), l.length ≤ fuel → (makeBatchesNat l b).flatten = l := by
  intro fuel
  induction fuel with
  | zero =>
    intro l hl
    have hnil : l = [] := List.eq_nil_of_length_eq_zero (by omega)
    subst hnil
    rw [makeBatchesNat_nil]
    rfl
  | succ m ih =>
    intro l hl
    rcases eq_or_ne l [] with rfl | hne
    · rw [makeBatchesNat_nil]; rfl
    · have hpos : 0 < l.length := List.length_pos.mpr hne
      rw [makeBatchesNat_cons hb hne, List.flatten_cons,
        ih (l.drop b) (by rw [List.length_drop]; omega), List.take_append_drop]

theorem makeBatchesNat_flatten {l : List Comment} {b : Nat} (hb : 0 < b) :
    (makeBatchesNat l b).flatten = l :=
  makeBatchesNat_flatten_aux b hb l.length l le_rfl

theorem makeBatchesNat_length (l : List Comment) (b : Nat) :
    (makeBatchesNat l b).length = (l.length + b - 1) / b := by
  simp [makeBatchesNat]

theorem makeBatchesNat_mem_aux (b : Nat) (hb : 0 < b) :
    ∀ (fuel : Nat) (l : List Comment), l.length ≤ fuel →
      ∀ c ∈ makeBatchesNat l b, c ≠ [] ∧ c.length ≤ b := by
  intro fuel
  induction fuel with
  | zero =>
    intro l hl c hc
    have hnil : l = [] := List.eq_nil_of_length_eq_zero (by omega)
    subst hnil
    rw [makeBatchesNat_nil] at hc
    exact absurd hc (List.not_mem_nil c)
  | succ m ih =>
    intro l hl c hc
    rcases eq_or_ne l [] with rfl | hne
    · rw [makeBatchesNat_nil] at hc
      exact absurd hc (List.not_mem_nil c)
    · have hpos : 0 < l.length := List.length_pos.mpr hne
      rw [makeBatchesNat_cons hb hne] at hc
      rcases List.mem_cons.mp hc with rfl | hc'
      · refine ⟨fun htake => ?_, ?_⟩
        · rcases List.take_eq_nil_iff.mp htake with h | h
          · omega
          · exact hne h
        · rw [List.length_take]; omega
      · exact ih (l.drop b) (by rw [List.length_drop]; omega) c hc'

theorem makeBatchesNat_mem {l : List Comment} {b : Nat} (hb : 0 < b) :
    ∀ c ∈ makeBatchesNat l b, c ≠ [] ∧ c.length ≤ b :=
  makeBatchesNat_mem_aux b hb l.length l le_rfl

theorem makeBatchesNat_size_aux (b : Nat) (hb : 0 < b) :
    ∀ (fuel : Nat) (l : List Comment), l.length ≤ fuel →
      ∀ k, k + 1 < (makeBatchesNat l b).length →
        ((makeBatchesNat l b).getD k []).length = b := by
  intro fuel
  induction fuel with
  | zero =>
    intro l hl k hk
    have hnil : l = [] := List.eq_nil_of_length_eq_zero (by omega)
    subst hnil
    rw [makeBatchesNat_nil] at hk
    simp at hk
  | succ m ih =>
    intro l hl k hk
    rcases eq_or_ne l [] with rfl | hne
    · rw [makeBatchesNat_nil] at hk
      simp at hk
    · have hpos : 0 < l.length := List.length_pos.mpr hne
      rw [makeBatchesNat_cons hb hne] at hk ⊢
      cases k with
      | zero =>
        rw [List.getD_cons_zero, List.length_take]
        rw [List.length_cons] at hk
        have hrest : makeBatchesNat (l.drop b) b ≠ [] := by
          intro h
          rw [h] at hk
          simp at hk
        have hdrop : l.drop b ≠ [] := makeBatchesNat_ne_nil hrest
        have : 0 < (l.drop b).length := List.length_pos.mpr hdrop
        rw [List.length_drop] at this
        omega
      | succ k' =>
        rw [List.getD_cons_succ]
        rw [List.length_cons] at hk
        exact ih (l.drop b) (by rw [List.length_drop]; omega) k' (by omega)

theorem makeBatchesNat_size {l : List Comment} {b : Nat} (hb : 0 < b) :
    ∀ k, k + 1 < (makeBatchesNat l b).length →
      ((makeBatchesNat l b).getD k []).length = b :=
  makeBatchesNat_size_aux b hb l.length l le_rfl

theorem baseOf_reconcile (entries : List ClassEntry) (c : Comment) :
    baseOf (reconcileComment entries c) = baseOf c := rfl

theorem baseOf_reconcileLegacy (entries : List ClassEntry) (c : Comment) :
    baseOf (reconcileCommentLegacy entries c) = baseOf c := rfl

theorem baseOf_default (c : Comment) : baseOf (defaultComment c) = baseOf c := rfl

theorem runBatches_processed (video_id bucket : String)
    (svc : Nat → Except String (List ClassEntry)) (uploadOk : Nat → Bool) :
    ∀ (batches : List (List Comment)) (n : Nat),
      (runBatches video_id bucket svc uploadOk n batches).processed.map baseOf =
        batches.flatten.map baseOf := by
  intro batches
  induction batches with
  | nil => intro n; rfl
  | cons batch rest ih =>
    intro n
    simp only [runBatches]
    cases hsvc : svc n with
    | ok entries =>
      simp only [List.flatten_cons, List.map_append, ih (n + 1), List.map_map]
      congr 1
    | error e =>
      simp only [List.flatten_cons, List.map_append, ih (n + 1), List.map_map]
      congr 1

theorem runBatches_prompts (video_id bucket : String)
    (svc : Nat → Except String (List ClassEntry)) (uploadOk : Nat → Bool) :
    ∀ (batches : List (List Comment)) (n : Nat),
      (runBatches video_id bucket svc uploadOk n batches).prompts =
        batches.map (fun batch => classification_prompt_template ++ concatPairs batch) := by
  intro batches
  induction batches with
  | nil => intro n; rfl
  | cons batch rest ih =>
    intro n
    simp only [runBatches, List.map_cons]
    cases hsvc : svc n with
    | ok entries => simp only [ih (n + 1), buildPrompt_eq]
    | error e => simp only [ih (n + 1), buildPrompt_eq]

theorem classify_comments_loop_processed (svc : Nat → Except String (List ClassEntry)) :
    ∀ (batches : List (List Comment)) (n : Nat) (p0 : String),
      (classify_comments_loop svc n p0 batches).2.map baseOf = batches.flatten.map baseOf := by
  intro batches
  induction batches with
  | nil => intro n p0; rfl
  | cons batch rest ih =>
    intro n p0
    simp only [classify_comments_loop, List.flatten_cons, List.map_append]
    rw [ih]
    congr 1
    cases hsvc : svc n with
    | ok entries =>
      simp only [List.map_map]
      apply List.map_congr_left
      intro c _
      rfl
    | error e =>
      simp only [List.map_map]
      apply List.map_congr_left
      intro c _
      rfl

theorem classify_comments_loop_prompts (svc : Nat → Except String (List ClassEntry)) :
    ∀ (batches : List (List Comment)) (n : Nat) (p0 : String),
      (classify_comments_loop svc n p0 batches).1 =
        (List.range batches.length).map
          (fun k => p0 ++ concatPairsLegacy ((batches.take (k + 1)).flatten)) := by
  intro batches
  induction batches with
  | nil => intro n p0; rfl
  | cons batch rest ih =>
    intro n p0
    simp only [classify_comments_loop]
    rw [foldl_commentPairLegacy, ih (n + 1) (p0 ++ concatPairsLegacy batch),
      List.length_cons, List.range_succ_eq_map]
    simp only [List.map_cons, List.map_map]
    congr 1
    · simp [List.take_succ_cons, concatPairsLegacy_append, concatPairsLegacy]
    · apply List.map_congr_left
      intro k _
      simp only [Function.comp_apply, List.take_succ_cons, List.flatten_cons,
        concatPairsLegacy_append, String.append_assoc]

theorem retryLoop_attemptsMade {ε α : Type} (attempt : Nat → Except ε α) :
    ∀ (fuel n : Nat), (retryLoop attempt n fuel).attemptsMade ≤ n + fuel + 1 := by
  intro fuel
  induction fuel with
  | zero =>
    intro n
    cases h : attempt n with
    | ok v =>
      simp only [retryLoop, h, RetryOutcome.attemptsMade]
      omega
    | error e =>
      simp only [retryLoop, h, RetryOutcome.attemptsMade]
      omega
  | succ m ih =>
    intro n
    cases h : attempt n with
    | ok v =>
      simp only [retryLoop, h, RetryOutcome.attemptsMade]
      omega
    | error e =>
      have hih := ih (n + 1)
      simp only [retryLoop, h]
      omega

/-! ### Claims -/

/-- Claim C3: for every input list and every batch_size B > 0, the partition
into batches is order-preserving and contiguous (concatenating all batches in
order reproduces the list), the number of batches is ceil(N/B), every batch
except possibly the last has size B, no batch is empty, and an empty input
yields zero batches. -/
theorem claim_partition_correct (l : List Comment) (B : Int) (bs : List (List Comment))
    (hB : 0 < B) (h : makeBatches l B = .ok bs) :
    bs.flatten = l ∧
    bs.length = (l.length + B.toNat - 1) / B.toNat ∧
    (∀ b ∈ bs, b ≠ [] ∧ b.length ≤ B.toNat) ∧
    (∀ k, k + 1 < bs.length → (bs.getD k []).length = B.toNat) ∧
    (l = [] → bs = []) := by
  have hb : 0 < B.toNat := by omega
  rw [makeBatches_pos l B hB] at h
  injection h with h
  subst h
  refine ⟨makeBatchesNat_flatten hb, makeBatchesNat_length l B.toNat,
    makeBatchesNat_mem hb, makeBatchesNat_size hb, ?_⟩
  intro hl
  subst hl
  exact makeBatchesNat_nil _

/-- Witness for C3 at a concrete input: 3 comments, batch_size 2. -/
theorem claim_partition_correct_witness :
    ([[cW1, cW2], [cW3]] : List (List Comment)).flatten = [cW1, cW2, cW3] ∧
    ([[cW1, cW2], [cW3]] : List (List Comment)).length =
      (([cW1, cW2, cW3] : List Comment).length + (2 : Int).toNat - 1) / (2 : Int).toNat := by
  have h : makeBatches [cW1, cW2, cW3] 2 = .ok [[cW1, cW2], [cW3]] := by rfl
  have hmain := claim_partition_correct [cW1, cW2, cW3] 2 [[cW1, cW2], [cW3]] (by decide) h
  exact ⟨hmain.1, hmain.2.1⟩

/-- Claim C1: for every input comment list and every positive batch_size, every
input comment record appears exactly once in the reconciled output of the
classification run (upgrade and legacy): the reconciled records project, in
order, to exactly the input records — none dropped, none duplicated —
whatever the per-batch service outcomes. -/
theorem claim_total_coverage (comments : List Comment) (video_id bucket : String)
    (B : Int) (svc svcL : Nat → Except String (List ClassEntry)) (uploadOk : Nat → Bool)
    (st : BatchRunState) (pr : List String × List Comment) (hB : 0 < B)
    (h : classify_and_upload_comments comments video_id B svc uploadOk bucket = .ok st)
    (hL : classify_comments comments B svcL = .ok pr) :
    st.processed.map baseOf = comments.map baseOf ∧
    pr.2.map baseOf = comments.map baseOf := by
  have hb : 0 < B.toNat := by omega
  rw [classify_and_upload_ne_zero comments video_id B svc uploadOk bucket (by omega)] at h
  unfold classify_comments at hL
  rw [makeBatches_pos comments B hB] at h hL
  simp only [Except.map] at h hL
  injection h with h
  injection hL with hL
  subst h
  subst hL
  constructor
  · rw [runBatches_processed, makeBatchesNat_flatten hb]
  · rw [classify_comments_loop_processed, makeBatchesNat_flatten hb]

/-- Witness for C1: a concrete 3-comment run with batch_size 2. -/
theorem claim_total_coverage_witness :
    (runBatches "vid" "bkt" (fun _ => .ok [eValid]) (fun _ => true) 0
        [[cW1, cW2], [cW3]]).processed.map baseOf =
      ([cW1, cW2, cW3] : List Comment).map baseOf ∧
    (classify_comments_loop (fun _ => .ok [eValid]) 0 classification_prompt
        [[cW1, cW2], [cW3]]).2.map baseOf =
      ([cW1, cW2, cW3] : List Comment).map baseOf := by
  have h : classify_and_upload_comments [cW1, cW2, cW3] "vid" 2 (fun _ => .ok [eValid])
      (fun _ => true) "bkt" =
      .ok (runBatches "vid" "bkt" (fun _ => .ok [eValid]) (fun _ => true) 0
        [[cW1, cW2], [cW3]]) := rfl
  have hL : classify_comments [cW1, cW2, cW3] 2 (fun _ => .ok [eValid]) =
      .ok (classify_comments_loop (fun _ => .ok [eValid]) 0 classification_prompt
        [[cW1, cW2], [cW3]]) := rfl
  exact claim_total_coverage [cW1, cW2, cW3] "vid" "bkt" 2 (fun _ => .ok [eValid])
    (fun _ => .ok [eValid]) (fun _ => true) _ _ (by decide) h hL

/-- Claim C2: when the service call of a batch raises (after retry
exhaustion), the error is caught, every comment of that batch gets all four
classification fields set uniformly to "UNKNOWN" (keywords to []), and the
remaining batches are still processed — in the upgrade run and in the legacy
loop alike. -/
theorem claim_batch_failure_defaults (video_id bucket : String)
    (svc : Nat → Except String (List ClassEntry)) (uploadOk : Nat → Bool)
    (n : Nat) (batch : List Comment) (rest : List (List Comment))
    (e : String) (h : svc n = .error e) :
    (runBatches video_id bucket svc uploadOk n (batch :: rest) =
      { s3_uris := (runBatches video_id bucket svc uploadOk (n + 1) rest).s3_uris,
        prompts := buildPrompt batch :: (runBatches video_id bucket svc uploadOk (n + 1) rest).prompts,
        processed := batch.map defaultComment ++
          (runBatches video_id bucket svc uploadOk (n + 1) rest).processed }) ∧
    (∀ c ∈ batch.map defaultComment,
      c.sentiment = "UNKNOWN" ∧ c.positive_status = "UNKNOWN" ∧
      c.comment_category = "UNKNOWN" ∧ c.keywords = []) ∧
    (∀ p0 : String, (classify_comments_loop svc n p0 (batch :: rest)).2 =
      batch.map defaultComment ++
        (classify_comments_loop svc (n + 1)
          (batch.foldl (fun p c => p ++ commentPairLegacy c) p0) rest).2) := by
  refine ⟨?_, ?_, ?_⟩
  · simp only [runBatches, h]
  · intro c hc
    obtain ⟨c', _, rfl⟩ := List.mem_map.mp hc
    exact ⟨rfl, rfl, rfl, rfl⟩
  · intro p0
    simp only [classify_comments_loop, h]

/-- Witness for C2: a concrete run whose first batch fails. -/
theorem claim_batch_failure_defaults_witness :
    (runBatches "vid" "bkt" (fun _ => .error "boom") (fun _ => true) 0
        [[cW1, cW2], [cW3]]).processed =
      [cW1, cW2].map defaultComment ++
        (runBatches "vid" "bkt" (fun _ => .error "boom") (fun _ => true) 1
          [[cW3]]).processed ∧
    (defaultComment cW1).sentiment = "UNKNOWN" ∧ (defaultComment cW1).keywords = [] := by
  have h := claim_batch_failure_defaults "vid" "bkt" (fun _ => .error "boom")
    (fun _ => true) 0 [cW1, cW2] [[cW3]] "boom" rfl
  refine ⟨congrArg BatchRunState.processed h.1, ?_, ?_⟩
  · exact (h.2.1 (defaultComment cW1) (by decide)).1
  · exact (h.2.1 (defaultComment cW1) (by decide)).2.2.2

/-- Claim C7: reconciliation (upgrade, legacy, and the failure-path
defaulting) preserves comment_id exactly and leaves every non-classification
field of the record unchanged. -/
theorem claim_frame_preservation (entries : List ClassEntry) (c : Comment) :
    ((reconcileComment entries c).comment_id = c.comment_id ∧
      (reconcileComment entries c).text_display = c.text_display ∧
      (reconcileComment entries c).other = c.other) ∧
    ((reconcileCommentLegacy entries c).comment_id = c.comment_id ∧
      (reconcileCommentLegacy entries c).text_display = c.text_display ∧
      (reconcileCommentLegacy entries c).other = c.other) ∧
    ((defaultComment c).comment_id = c.comment_id ∧
      (defaultComment c).text_display = c.text_display ∧
      (defaultComment c).other = c.other) :=
  ⟨⟨rfl, rfl, rfl⟩, ⟨rfl, rfl, rfl⟩, ⟨rfl, rfl, rfl⟩⟩

/-- Claim C4 (amended): in the upgraded pipeline, for each comment and each of
the three categorical fields independently, an absent per-comment result or an
absent/invalid field value yields the sentinel "UNKNOWN" and a valid value is
kept, while keywords defaults to the empty sequence; in the legacy
classify_comments the empty string "" is written instead of "UNKNOWN" for the
three categorical fields (keywords behaves the same). -/
theorem claim_field_defaulting (entries : List ClassEntry) (c : Comment) :
    (classification_dict_get entries c.comment_id = none →
      (reconcileComment entries c).sentiment = "UNKNOWN" ∧
      (reconcileComment entries c).positive_status = "UNKNOWN" ∧
      (reconcileComment entries c).comment_category = "UNKNOWN" ∧
      (reconcileComment entries c).keywords = [] ∧
      (reconcileCommentLegacy entries c).sentiment = "" ∧
      (reconcileCommentLegacy entries c).positive_status = "" ∧
      (reconcileCommentLegacy entries c).comment_category = "" ∧
      (reconcileCommentLegacy entries c).keywords = []) ∧
    (∀ entry, classification_dict_get entries c.comment_id = some entry →
      ((reconcileComment entries c).sentiment =
        match entry.sentiment with
        | some v => if SENTIMENT_ENUM.contains v then v else "UNKNOWN"
        | none => "UNKNOWN") ∧
      ((reconcileComment entries c).positive_status =
        match entry.positive_status with
        | some v => if POSITIVE_STATUS_ENUM.contains v then v else "UNKNOWN"
        | none => "UNKNOWN") ∧
      ((reconcileComment entries c).comment_category =
        match entry.comment_category with
        | some v => if COMMENT_CATEGORY_ENUM.contains v then v else "UNKNOWN"
        | none => "UNKNOWN") ∧
      (reconcileComment entries c).keywords = entry.keywords.getD [] ∧
      ((reconcileCommentLegacy entries c).sentiment =
        match entry.sentiment with
        | some v => if SENTIMENT_ENUM.contains v then v else ""
        | none => "") ∧
      ((reconcileCommentLegacy entries c).positive_status =
        match entry.positive_status with
        | some v => if POSITIVE_STATUS_ENUM.contains v then v else ""
        | none => "") ∧
      ((reconcileCommentLegacy entries c).comment_category =
        match entry.comment_category with
        | some v => if COMMENT_CATEGORY_ENUM.contains v then v else ""
        | none => "") ∧
      (reconcileCommentLegacy entries c).keywords = entry.keywords.getD []) := by
  constructor
  · intro h
    simp [reconcileComment, reconcileCommentLegacy, classifyField, classifyFieldLegacy,
      optMem, emptyClassEntry, h]
  · intro entry h
    obtain ⟨eid, ecm, es, ep, ec, ek⟩ := entry
    refine ⟨?_, ?_, ?_, ?_, ?_, ?_, ?_, ?_⟩ <;>
      simp [reconcileComment, reconcileCommentLegacy, classifyField, classifyFieldLegacy,
        optMem, h] <;>
      first
        | (cases es <;> simp [optMem])
        | (cases ep <;> simp [optMem])
        | (cases ec <;> simp [optMem])

/-- Counterexample for C4 as stated: in the legacy pipeline, a reconciled
batch whose service entry carries the out-of-enumeration sentiment "HAPPY"
gets the empty string, not the sentinel "UNKNOWN". -/
theorem claim_field_defaulting_counterexample :
    (classify_comments_loop (fun _ => .ok [eInvalid]) 0 classification_prompt
        [[cW1]]).2.map Comment.sentiment = [""] ∧
    ("" : String) ≠ "UNKNOWN" := by
  constructor
  · rfl
  · decide

/-- Witness for C4 at a concrete input. -/
theorem claim_field_defaulting_witness :
    (reconcileComment [eInvalid] cW1).sentiment = "UNKNOWN" ∧
    (reconcileComment [eInvalid] cW1).keywords = [] ∧
    (reconcileCommentLegacy [eInvalid] cW1).sentiment = "" := by
  have h := (claim_field_defaulting [eInvalid] cW1).2 eInvalid (by rfl)
  refine ⟨?_, ?_, ?_⟩
  · have h1 := h.1
    simpa [eInvalid, SENTIMENT_ENUM] using h1
  · have h1 := h.2.2.2.1
    simpa [eInvalid] using h1
  · have h1 := h.2.2.2.2.1
    simpa [eInvalid, SENTIMENT_ENUM] using h1

/-- Claim C5 (amended): in the upgraded pipeline every batch prompt is the
fixed instruction text followed by exactly that batch's
"<comment_id> : <comment_text>" pairs in batch order, with no comment of any
other batch; in the legacy classify_comments, the prompt accumulates across
batches, so batch k's prompt contains the pairs of all batches up to and
including k. -/
theorem claim_prompt_per_batch :
    (∀ (video_id bucket : String) (svc : Nat → Except String (List ClassEntry))
        (uploadOk : Nat → Bool) (n : Nat) (batches : List (List Comment)),
      (runBatches video_id bucket svc uploadOk n batches).prompts =
        batches.map (fun batch => classification_prompt_template ++ concatPairs batch)) ∧
    (∀ (svc : Nat → Except String (List ClassEntry)) (n : Nat) (p0 : String)
        (batches : List (List Comment)),
      (classify_comments_loop svc n p0 batches).1 =
        (List.range batches.length).map
          (fun k => p0 ++ concatPairsLegacy ((batches.take (k + 1)).flatten))) :=
  ⟨fun video_id bucket svc uploadOk n batches =>
      runBatches_prompts video_id bucket svc uploadOk batches n,
    fun svc n p0 batches => classify_comments_loop_prompts svc batches n p0⟩

set_option maxRecDepth 100000 in
/-- Counterexample for C5 as stated: in the legacy pipeline with two
singleton batches, the second batch's prompt contains the first batch's
comment pair, so it is not the instruction text followed by only its own
batch's pairs. -/
theorem claim_prompt_per_batch_counterexample :
    (classify_comments_loop (fun _ => .error "boom") 0 classification_prompt
        [[cW1], [cW2]]).1.getD 1 "" =
      classification_prompt ++ concatPairsLegacy [cW1] ++ concatPairsLegacy [cW2] ∧
    (classify_comments_loop (fun _ => .error "boom") 0 classification_prompt
        [[cW1], [cW2]]).1.getD 1 "" ≠
      classification_prompt ++ concatPairsLegacy [cW2] := by
  constructor
  · decide
  · decide

/-- Claim C6: the tenacity-wrapped service call makes at most 3 attempts: two
failures followed by a success return the success on the 3rd attempt; three
consecutive failures propagate the last error after exactly 3 attempts. The
attempt outcome types are arbitrary, reflecting that every exception type is
retried. -/
theorem claim_retry_bound {ε α : Type} (attempt : Nat → Except ε α) :
    (∀ (e0 e1 : ε) (v : α), attempt 0 = .error e0 → attempt 1 = .error e1 →
      attempt 2 = .ok v → call_openai_api attempt = .success 3 v) ∧
    (∀ e0 e1 e2 : ε, attempt 0 = .error e0 → attempt 1 = .error e1 →
      attempt 2 = .error e2 → call_openai_api attempt = .failure 3 e2) ∧
    (call_openai_api attempt).attemptsMade ≤ 3 := by
  refine ⟨?_, ?_, ?_⟩
  · intro e0 e1 v h0 h1 h2
    simp [call_openai_api, retryLoop, h0, h1, h2]
  · intro e0 e1 e2 h0 h1 h2
    simp [call_openai_api, retryLoop, h0, h1, h2]
  · have h := retryLoop_attemptsMade attempt 2 0
    simpa [call_openai_api] using h

/-- Witness for C6: an attempt oracle failing twice then succeeding. -/
theorem claim_retry_bound_witness :
    call_openai_api (fun n => match n with
      | 0 => Except.error "timeout one"
      | 1 => Except.error "timeout two"
      | _ => Except.ok 7) = .success 3 7 :=
  (claim_retry_bound (fun n => match n with
      | 0 => Except.error "timeout one"
      | 1 => Except.error "timeout two"
      | _ => Except.ok 7)).1 "timeout one" "timeout two" 7 rfl rfl rfl

/-- Claim C8: the two failure signals of one service-call attempt — an error
of the network call and a response body that fails to parse — surface as
distinct, distinguishable error kinds to the caller. -/
theorem claim_error_kinds (parseContent : String → Except String (List ClassEntry))
    (e content pe : String) (v : List ClassEntry) :
    call_openai_api_attempt (.error e) parseContent = .error (.serviceError e) ∧
    (parseContent content = .error pe →
      call_openai_api_attempt (.ok content) parseContent = .error (.malformedResponse pe)) ∧
    (parseContent content = .ok v →
      call_openai_api_attempt (.ok content) parseContent = .ok v) ∧
    (∀ a b : String, ApiFailure.serviceError a ≠ ApiFailure.malformedResponse b) := by
  refine ⟨rfl, ?_, ?_, ?_⟩
  · intro h
    simp [call_openai_api_attempt, h]
  · intro h
    simp [call_openai_api_attempt, h]
  · intro a b hab
    exact ApiFailure.noConfusion hab

/-- Witness for C8: a body that fails to parse yields the malformed-response
kind. -/
theorem claim_error_kinds_witness :
    call_openai_api_attempt (.ok "not json") (fun _ => .error "Expecting value") =
      .error (.malformedResponse "Expecting value") :=
  (claim_error_kinds (fun _ => .error "Expecting value") "err" "not json"
    "Expecting value" []).2.1 rfl

/-- Claim C9: once input comments were fetched, the job is reported
successful exactly when at least one batch produced an output reference: an
empty reference list yields statusCode 500 and a non-empty one yields
statusCode 200 carrying that reference list. -/
theorem claim_job_success_iff (video_id bucket : String) (fetched : List Comment)
    (svc : Nat → Except String (List ClassEntry)) (uploadOk : Nat → Bool)
    (B : Int) (st : BatchRunState) (hne : fetched ≠ [])
    (h : classify_and_upload_comments fetched video_id B svc uploadOk bucket = .ok st) :
    (st.s3_uris = [] →
      lambda_handler (some video_id) (some (.int B)) fetched svc uploadOk bucket =
        .ok { statusCode := 500, s3_uris := none }) ∧
    (st.s3_uris ≠ [] →
      lambda_handler (some video_id) (some (.int B)) fetched svc uploadOk bucket =
        .ok { statusCode := 200, s3_uris := some st.s3_uris }) := by
  have hf : fetched.isEmpty = false := by
    cases fetched with
    | nil => exact absurd rfl hne
    | cons a t => rfl
  constructor
  · intro hu
    simp [lambda_handler, pyInt, hf, h, hu]
  · intro hu
    have hu' : st.s3_uris.isEmpty = false := by
      cases hst : st.s3_uris with
      | nil => exact absurd hst hu
      | cons a t => rfl
    simp [lambda_handler, pyInt, hf, h, hu']

/-- Witness for C9: a concrete one-batch run whose upload succeeds returns
200 with the single URI. -/
theorem claim_job_success_iff_witness :
    lambda_handler (some "v") (some (.int 1)) [cW1] (fun _ => .ok [eValid])
        (fun _ => true) "b" =
      .ok { statusCode := 200,
            s3_uris := some ["s3://b/classified/v/classified_comments_v_batch_1.csv"] } := by
  have h : classify_and_upload_comments [cW1] "v" 1 (fun _ => .ok [eValid])
      (fun _ => true) "b" =
      .ok (runBatches "v" "b" (fun _ => .ok [eValid]) (fun _ => true) 0 [[cW1]]) := rfl
  have hmain := claim_job_success_iff "v" "b" [cW1] (fun _ => .ok [eValid])
    (fun _ => true) 1 _ (by decide) h
  have hres := hmain.2 (by decide)
  exact hres.trans (by rfl)

/-- Claim C10 (amended): the handler never enforces batch_size > 0: the value
0 passes parameter validation (no 400), and the run then raises an unhandled
ZeroDivisionError at the total_batches floor division (line 211), before the
range loop is ever reached; a negative batch_size yields zero batches, so the
handler returns the 500 failure status — in neither case the documented
invalid-parameter 400 response. -/
theorem claim_batch_size_unvalidated (video_id bucket : String) (fetched : List Comment)
    (svc : Nat → Except String (List ClassEntry)) (uploadOk : Nat → Bool)
    (B : Int) (hne : fetched ≠ []) :
    pyInt (.int 0) = .ok 0 ∧
    lambda_handler (some video_id) (some (.int 0)) fetched svc uploadOk bucket =
      .error "integer division or modulo by zero" ∧
    (B < 0 → makeBatches fetched B = .ok [] ∧
      lambda_handler (some video_id) (some (.int B)) fetched svc uploadOk bucket =
        .ok { statusCode := 500, s3_uris := none }) := by
  have hf : fetched.isEmpty = false := by
    cases fetched with
    | nil => exact absurd rfl hne
    | cons a t => rfl
  refine ⟨rfl, ?_, ?_⟩
  · have h0 : classify_and_upload_comments fetched video_id 0 svc uploadOk bucket =
        .error "integer division or modulo by zero" := rfl
    simp [lambda_handler, pyInt, hf, h0]
  · intro hB
    have hsize : pythonRangeSize 0 fetched.length B = 0 := by
      unfold pythonRangeSize
      rw [if_neg (by omega)]
      exact Nat.div_eq_of_lt (by omega)
    have hmb : makeBatches fetched B = .ok [] := by
      unfold makeBatches pythonRange
      rw [if_neg (by omega), hsize]
      rfl
    have hrun : classify_and_upload_comments fetched video_id B svc uploadOk bucket =
        .ok { s3_uris := [], prompts := [], processed := [] } := by
      rw [classify_and_upload_ne_zero fetched video_id B svc uploadOk bucket (by omega), hmb]
      rfl
    refine ⟨hmb, ?_⟩
    simp [lambda_handler, pyInt, hf, hrun]

/-- Counterexample for C10 as stated: at a concrete event with batch_size 0,
the exception escaping the handler is the ZeroDivisionError of the
total_batches floor division, not the zero-step range ValueError the claim
names as the mechanism. -/
theorem claim_batch_size_unvalidated_counterexample :
    lambda_handler (some "v") (some (.int 0)) [cW1] (fun _ => .ok [])
        (fun _ => true) "b" = .error "integer division or modulo by zero" ∧
    lambda_handler (some "v") (some (.int 0)) [cW1] (fun _ => .ok [])
        (fun _ => true) "b" ≠ .error "range() arg 3 must not be zero" := by
  constructor
  · rfl
  · intro h
    have h1 : lambda_handler (some "v") (some (.int 0)) [cW1] (fun _ => .ok [])
        (fun _ => true) "b" = .error "integer division or modulo by zero" := rfl
    rw [h1] at h
    injection h with h2
    exact absurd h2 (by decide)

/-- Witness for C10 at a concrete event: batch_size 0 escapes as the
unhandled division error and batch_size -3 returns the 500 status. -/
theorem claim_batch_size_unvalidated_witness :
    lambda_handler (some "v") (some (.int 0)) [cW1] (fun _ => .ok [])
        (fun _ => true) "b" = .error "integer division or modulo by zero" ∧
    lambda_handler (some "v") (some (.int (-3))) [cW1] (fun _ => .ok [])
        (fun _ => true) "b" = .ok { statusCode := 500, s3_uris := none } := by
  have hmain := claim_batch_size_unvalidated "v" "b" [cW1] (fun _ => .ok [])
    (fun _ => true) (-3) (by decide)
  exact ⟨hmain.2.1, (hmain.2.2 (by decide)).2⟩
